import Mathlib

/-!
Shallow embedding of the YouTube audio downloader's API route handlers
(`src/app/api/download/route.ts` and the info route): URL validation,
yt-dlp argument construction, the download POST handler with its
scratch-directory lifecycle, and the info resolver `getVideoInfo`.
External effects (the subprocess and the filesystem) are modelled by
explicit oracle inputs, and the handler result records every observable
effect of a request: response status and body, the argument list passed
to the spawned subprocess (if any), whether the scratch directory was
created, and the directory's contents when the handler returns.
-/

namespace YtDlRoute

/-- Line terminators, which the JS regex metacharacter dot does not match. -/
def isLineTerm (c : Char) : Bool :=
  c = '\n' || c = '\r' || c = '\u2028' || c = '\u2029'

/-- Strip a literal character sequence from the front of a list, returning
the remainder on success. -/
def stripLit : List Char → List Char → Option (List Char)
  | [], cs => some cs
  | _ :: _, [] => none
  | p :: ps, c :: cs => if c = p then stripLit ps cs else none

/-- Alternatives of the regex's optional scheme group. -/
def SCHEMES : List (List Char) := [[], "http://".data, "https://".data]

/-- Alternatives of the regex's optional www-dot group. -/
def WWWS : List (List Char) := [[], "www.".data]

/-- Alternatives of the regex's host group, each including the mandatory
slash that follows it. -/
def HOSTS : List (List Char) := ["youtube.com/".data, "youtu.be/".data]

/-- Embedding of the route's URL test
`/^(https?:\/\/)?(www\.)?(youtube\.com|youtu\.be)\/.+/.test(url)`:
the regex matches iff for some choice of the optional groups the literal
prefix is consumed and at least one non-line-terminator character follows
(the trailing dot-plus is not anchored, so one such character suffices). -/
def youtubeRegexTest (s : String) : Bool :=
  SCHEMES.any fun sc => WWWS.any fun w => HOSTS.any fun h =>
    match stripLit (sc ++ w ++ h) s.data with
    | some (c :: _) => !isLineTerm c
    | _ => false

/-- The URL host pattern as the spec words it for the validation claim:
matched case-insensitively (the input is lowercased first), optional
scheme, optional www-dot prefix, host youtube.com or youtu.be, followed by
any path.  Kept separate from `youtubeRegexTest` so the code's
case-sensitive test can be compared against the spec's description. -/
def specUrlPattern (s : String) : Bool :=
  SCHEMES.any fun sc => WWWS.any fun w => HOSTS.any fun h =>
    (stripLit (sc ++ w ++ h) (s.data.map Char.toLower)).isSome

/-- `AUDIO_FORMATS` constant from the route. -/
def AUDIO_FORMATS : List String :=
  ["best", "aac", "alac", "flac", "m4a", "mp3", "opus", "vorbis", "wav"]

/-- `THUMBNAIL_SUPPORTED` constant from the route. -/
def THUMBNAIL_SUPPORTED : List String :=
  ["mp3", "mkv", "mka", "ogg", "opus", "flac", "m4a", "mp4", "m4v", "mov"]

/-- The JSON body of a download request: `{url, format, original}`.
A missing `format` field is `none`. -/
structure DownloadRequest where
  url : String
  format : Option String
  original : Bool
deriving DecidableEq

/-- JS truthiness of an optional string field: absent and the empty string
are falsy. -/
def strTruthy : Option String → Bool
  | none => false
  | some s => s ≠ ""

/-- JS `x || d` on an optional string field: the default is taken when the
field is absent or empty. -/
def jsOrDefault (o : Option String) (d : String) : String :=
  match o with
  | none => d
  | some s => if s = "" then d else s

/-- `list.splice(i, 0, x)` with a nonnegative index: insert `x` before
position `i`. -/
def insertAt (l : List String) (i : Nat) (x : String) : List String :=
  l.take i ++ [x] ++ l.drop i

/-- `args.splice(args.indexOf(flagEmbedMeta), 0, x)`: insert `x` before the
first occurrence of the embed-metadata flag; when the flag is absent,
`indexOf` yields -1 and JS `splice` counts that from the end of the array. -/
def spliceBeforeMeta (l : List String) (x : String) : List String :=
  match l.findIdx? (· == "--embed-metadata") with
  | some i => insertAt l i x
  | none => insertAt l (l.length - 1) x

/-- The `--parse-metadata` rule string used by the route. -/
def pmRule : String := "description:(?s)(?P<meta_comment>.+)"

/-- `join(tempDir, '%(title)s.%(ext)s')` on a POSIX path. -/
def outputTemplateOf (tempDir : String) : String :=
  tempDir ++ "/%(title)s.%(ext)s"

/-- The yt-dlp argument list the download handler constructs, including the
position-dependent thumbnail splice. -/
def buildArgs (tempDir : String) (req : DownloadRequest) : List String :=
  let outputTemplate := outputTemplateOf tempDir
  if req.original then
    let args := ["-x", "--audio-format", "opus", "--audio-quality", "0",
      "--embed-metadata", "--parse-metadata", pmRule,
      "-o", outputTemplate, "--no-warnings", "--no-playlist", req.url]
    spliceBeforeMeta args "--embed-thumbnail"
  else
    let targetFormat := jsOrDefault req.format "mp3"
    let args := ["-x", "--audio-format", targetFormat, "--audio-quality", "0",
      "--embed-metadata", "--parse-metadata", pmRule,
      "-o", outputTemplate, "--no-warnings", "--no-playlist", req.url]
    if THUMBNAIL_SUPPORTED.contains targetFormat then
      spliceBeforeMeta args "--embed-thumbnail"
    else
      args

/-- The effective output format of a request: opus in original mode, else
the requested format with the handler's default of mp3. -/
def targetFormatOf (req : DownloadRequest) : String :=
  if req.original then "opus" else jsOrDefault req.format "mp3"

/-- Outcome of attempting to spawn yt-dlp: either the spawn itself fails
(`error` event with a message) or the process runs and exits with a code,
having produced some standard-error text. -/
inductive ToolOutcome where
  | spawnErr (msg : String)
  | exited (code : Nat) (stderr : String)
deriving DecidableEq

/-- Oracle describing one yt-dlp invocation for the download handler: the
process outcome and the files the run leaves in the scratch directory. -/
structure ToolRun where
  outcome : ToolOutcome
  producedFiles : List String
deriving DecidableEq

/-- `runYtDlp`: resolves on exit code zero; rejects with the captured
standard-error text (or a generic message when it is empty) on nonzero
exit, and with an install hint when the spawn fails. -/
def runYtDlp (t : ToolOutcome) : Except String Unit :=
  match t with
  | .spawnErr msg =>
    .error ("yt-dlp not found. Please ensure yt-dlp is installed: " ++ msg)
  | .exited code stderr =>
    if code ≠ 0 then .error (if stderr = "" then "yt-dlp failed" else stderr)
    else .ok ()

/-- JS `s.endsWith(post)`, computed on the character lists. -/
def strEndsWith (s post : String) : Bool :=
  post.data.isSuffixOf s.data

/-- The sidecar-image filter applied to the scratch directory listing. -/
def audioFilter (files : List String) : List String :=
  files.filter fun f =>
    !(strEndsWith f ".jpg") && !(strEndsWith f ".png") && !(strEndsWith f ".webp")

/-- JS `filename.split('.').pop()`: the segment after the last dot, or the
whole name when it contains no dot. -/
def lastDotSeg (cs : List Char) : List Char :=
  cs.foldl (fun acc c => if c = '.' then [] else acc ++ [c]) []

/-- `filename.split('.').pop()?.toLowerCase() || 'audio'`. -/
def extOf (f : String) : String :=
  let e := (lastDotSeg f.data).map Char.toLower
  if e = [] then "audio" else String.mk e

/-- The route's `contentTypes` record, as an association list. -/
def contentTypes : List (String × String) :=
  [("mp3", "audio/mpeg"), ("m4a", "audio/mp4"), ("aac", "audio/aac"),
   ("opus", "audio/ogg"), ("ogg", "audio/ogg"), ("webm", "audio/webm"),
   ("flac", "audio/flac"), ("wav", "audio/wav"), ("alac", "audio/mp4"),
   ("vorbis", "audio/ogg")]

/-- Property lookup on the record, first matching key wins. -/
def lookupCT : List (String × String) → String → Option String
  | [], _ => none
  | (k, v) :: t, e => if e = k then some v else lookupCT t e

/-- `contentTypes[ext] || 'application/octet-stream'`. -/
def contentTypeOf (ext : String) : String :=
  match lookupCT contentTypes ext with
  | some ct => ct
  | none => "application/octet-stream"

/-- Observable result of one download request: the HTTP response (status,
JSON error body or served file with its content type), whether a scratch
directory was created, the argument list of the attempted spawn (none when
no spawn was attempted), and the scratch directory's state when the
handler returns (`none` means the directory is absent). -/
structure HandlerResult where
  status : Nat
  errorBody : Option String
  fileName : Option String
  contentType : Option String
  dirCreated : Bool
  spawnArgs : Option (List String)
  finalDir : Option (List String)
deriving DecidableEq

/-- The download route's `POST` handler.  `tempDir` stands for the
uniquely named scratch directory path chosen for this request and `tool`
for the behaviour of the yt-dlp invocation. -/
def POST (tempDir : String) (req : DownloadRequest) (tool : ToolRun) :
    HandlerResult :=
  if req.url = "" then
    { status := 400, errorBody := some "URL is required", fileName := none,
      contentType := none, dirCreated := false, spawnArgs := none,
      finalDir := none }
  else if !youtubeRegexTest req.url then
    { status := 400, errorBody := some "Invalid YouTube URL", fileName := none,
      contentType := none, dirCreated := false, spawnArgs := none,
      finalDir := none }
  else if !req.original && strTruthy req.format
      && !(AUDIO_FORMATS.contains (req.format.getD "")) then
    { status := 400, errorBody := some "Invalid audio format", fileName := none,
      contentType := none, dirCreated := false, spawnArgs := none,
      finalDir := none }
  else
    let args := buildArgs tempDir req
    match runYtDlp tool.outcome with
    | .error msg =>
      { status := 500, errorBody := some msg, fileName := none,
        contentType := none, dirCreated := true, spawnArgs := some args,
        finalDir := none }
    | .ok _ =>
      let files := tool.producedFiles
      if files.length = 0 then
        { status := 500, errorBody := some "Download failed - no file created",
          fileName := none, contentType := none, dirCreated := true,
          spawnArgs := some args, finalDir := some files }
      else
        let audioFiles := audioFilter files
        if audioFiles.length = 0 then
          { status := 500,
            errorBody := some "Download failed - no audio file created",
            fileName := none, contentType := none, dirCreated := true,
            spawnArgs := some args, finalDir := some files }
        else
          let filename := audioFiles.headD ""
          { status := 200, errorBody := none, fileName := some filename,
            contentType := some (contentTypeOf (extOf filename)),
            dirCreated := true, spawnArgs := some args, finalDir := none }

/-- One entry of the tool-reported format list, as the info route reads it
from the parsed JSON.  Numeric fields and `format_note`/`audio_ext` may be
absent in the JSON, hence the options. -/
structure VideoFormat where
  format_id : String
  ext : String
  acodec : String
  vcodec : String
  abr : Option Int
  filesize : Option Int
  format_note : Option String
  audio_ext : Option String
deriving DecidableEq

/-- One entry of the filtered audio-format list the info route returns. -/
structure AudioFormatDescriptor where
  format_id : String
  ext : String
  acodec : String
  abr : Option Int
  filesize : Option Int
  format_note : Option String
deriving DecidableEq

/-- The per-entry mapping of the info route: the returned `ext` is
`f.audio_ext || f.ext` (the generic extension when the audio-specific one
is absent or empty). -/
def descOf (f : VideoFormat) : AudioFormatDescriptor :=
  { format_id := f.format_id, ext := jsOrDefault f.audio_ext f.ext,
    acodec := f.acodec, abr := f.abr, filesize := f.filesize,
    format_note := f.format_note }

/-- The info route's format filtering: keep entries whose video codec is
the sentinel none-string and whose audio codec is not, then map each to a
descriptor. -/
def audioFormatsOf (fs : List VideoFormat) : List AudioFormatDescriptor :=
  (fs.filter fun f => f.vcodec == "none" && f.acodec != "none").map descOf

/-- The format-list transformation as the spec words it: walk the tool's
list in order; an entry is kept exactly when its video codec field equals
"none" and its audio codec field does not (so an entry with both codecs
"none" is dropped), and each kept entry becomes its descriptor.  Written
independently of `audioFormatsOf` so the two can be compared. -/
def specAudioFormats : List VideoFormat → List AudioFormatDescriptor
  | [] => []
  | f :: fs =>
    if f.vcodec = "none" ∧ f.acodec ≠ "none" then
      descOf f :: specAudioFormats fs
    else
      specAudioFormats fs

/-- The parsed JSON object of a successful metadata dump. -/
structure VideoData where
  title : String
  thumbnail : String
  duration : Int
  uploader : String
  formats : List VideoFormat
deriving DecidableEq

/-- The `VideoInfo` value the info route resolves with. -/
structure VideoInfo where
  title : String
  thumbnail : String
  duration : Int
  uploader : String
  formats : List AudioFormatDescriptor
deriving DecidableEq

/-- Outcome of the info route's yt-dlp invocation: spawn failure, or exit
with a code, captured standard-error text, and the result of JSON-parsing
the captured standard output (`none` when parsing fails). -/
inductive InfoToolOutcome where
  | spawnErr (msg : String)
  | exited (code : Nat) (stderr : String) (stdoutParsed : Option VideoData)
deriving DecidableEq

/-- What one call of the info route's `getVideoInfo` does: the argument
list passed to the spawned tool, and the promise's resolution. -/
structure InfoCall where
  args : List String
  result : Except String VideoInfo

/-- The info route's `getVideoInfo`: builds the argument list, spawns the
tool, and settles according to the outcome. -/
def getVideoInfo (url : String) (tool : InfoToolOutcome) : InfoCall :=
  { args := ["-j", "--no-warnings", url],
    result :=
      match tool with
      | .spawnErr msg =>
        .error ("yt-dlp not found. Please install it: " ++ msg)
      | .exited code stderr parsed =>
        if code ≠ 0 then
          .error (if stderr = "" then "Failed to get video info" else stderr)
        else
          match parsed with
          | none => .error "Failed to parse video info"
          | some data =>
            .ok { title := data.title, thumbnail := data.thumbnail,
                  duration := data.duration, uploader := data.uploader,
                  formats := audioFormatsOf data.formats } }

/-- Observable result of one info request: response status, error body,
returned summary, and the argument list of the attempted spawn (`none`
when no spawn was attempted). -/
structure InfoHandlerResult where
  status : Nat
  errorBody : Option String
  info : Option VideoInfo
  spawnArgs : Option (List String)
deriving DecidableEq

/-- The info route's `POST` handler. -/
def infoPOST (url : String) (tool : InfoToolOutcome) : InfoHandlerResult :=
  if url = "" then
    { status := 400, errorBody := some "URL is required", info := none,
      spawnArgs := none }
  else if !youtubeRegexTest url then
    { status := 400, errorBody := some "Invalid YouTube URL", info := none,
      spawnArgs := none }
  else
    let call := getVideoInfo url tool
    match call.result with
    | .error msg =>
      { status := 500, errorBody := some msg, info := none,
        spawnArgs := some call.args }
    | .ok info =>
      { status := 200, errorBody := none, info := some info,
        spawnArgs := some call.args }

/-! ## Helper lemmas -/

/-- Stripping an all-lowercase literal commutes with lowercasing the input. -/
theorem stripLit_map_toLower (p : List Char) : ∀ cs rest : List Char,
    (∀ c ∈ p, c.toLower = c) → stripLit p cs = some rest →
    stripLit p (cs.map Char.toLower) = some (rest.map Char.toLower) := by
  induction p with
  | nil =>
    intro cs rest _ h
    simp only [stripLit, Option.some.injEq] at h
    subst h
    rfl
  | cons a ps ih =>
    intro cs rest hp h
    cases cs with
    | nil => simp [stripLit] at h
    | cons c cs =>
      simp only [stripLit] at h
      by_cases hc : c = a
      · rw [if_pos hc] at h
        have hal : a.toLower = a := hp a (List.mem_cons_self a ps)
        simp only [List.map_cons, stripLit, hc, hal, if_pos]
        exact ih cs rest (fun x hx => hp x (List.mem_cons_of_mem a hx)) h
      · rw [if_neg hc] at h
        exact absurd h (by simp)

/-- The case-sensitive regex of the code accepts only inputs that the
spec's case-insensitive pattern also accepts. -/
theorem regexTest_implies_specPattern (s : String)
    (h : youtubeRegexTest s = true) : specUrlPattern s = true := by
  have hlow : ∀ p ∈ SCHEMES ++ WWWS ++ HOSTS, ∀ c ∈ p, c.toLower = c := by
    decide
  unfold youtubeRegexTest at h
  unfold specUrlPattern
  simp only [List.any_eq_true] at h ⊢
  obtain ⟨sc, hsc, w, hw, ht, hht, hm⟩ := h
  refine ⟨sc, hsc, w, hw, ht, hht, ?_⟩
  have hpl : ∀ c ∈ sc ++ w ++ ht, c.toLower = c := by
    intro c hc
    rcases List.mem_append.1 hc with hc1 | hc1
    · rcases List.mem_append.1 hc1 with hc2 | hc2
      · exact hlow sc (by simp [hsc]) c hc2
      · exact hlow w (by simp [hw]) c hc2
    · exact hlow ht (by simp [hht]) c hc1
  cases hst : stripLit (sc ++ w ++ ht) s.data with
  | none => rw [hst] at hm; exact absurd hm (by simp)
  | some rest =>
    rw [stripLit_map_toLower (sc ++ w ++ ht) s.data rest hpl hst]
    rfl

/-- Membership in a list after a positional insert. -/
theorem mem_insertAt (l : List String) (i : Nat) (x y : String) :
    y ∈ insertAt l i x ↔ y = x ∨ y ∈ l := by
  unfold insertAt
  constructor
  · intro h
    rcases List.mem_append.1 h with h1 | h1
    · rcases List.mem_append.1 h1 with h2 | h2
      · exact Or.inr (List.take_subset i l h2)
      · simp only [List.mem_singleton] at h2
        exact Or.inl h2
    · exact Or.inr (List.drop_subset i l h1)
  · intro h
    rcases h with h | h
    · subst h
      simp
    · rw [← List.take_append_drop i l] at h
      rcases List.mem_append.1 h with h1 | h1
      · exact List.mem_append.2 (Or.inl (List.mem_append.2 (Or.inl h1)))
      · exact List.mem_append.2 (Or.inr h1)

/-- Membership in a list after the thumbnail splice. -/
theorem mem_spliceBeforeMeta (l : List String) (x y : String) :
    y ∈ spliceBeforeMeta l x ↔ y = x ∨ y ∈ l := by
  unfold spliceBeforeMeta
  cases h : l.findIdx? (· == "--embed-metadata") with
  | none => exact mem_insertAt l (l.length - 1) x y
  | some i => exact mem_insertAt l i x y

/-- Inversion: a download result that records spawn arguments passed all
three validation gates, and the recorded arguments are the constructed
ones. -/
theorem POST_reaches_spawn (tempDir : String) (req : DownloadRequest)
    (tool : ToolRun) (h : (POST tempDir req tool).spawnArgs ≠ none) :
    req.url ≠ "" ∧ youtubeRegexTest req.url = true ∧
    (!req.original && strTruthy req.format
      && !(AUDIO_FORMATS.contains (req.format.getD ""))) = false ∧
    (POST tempDir req tool).spawnArgs = some (buildArgs tempDir req) := by
  by_cases h1 : req.url = ""
  · simp [POST, h1] at h
  · by_cases h2 : youtubeRegexTest req.url
    · by_cases h3 : (req.original = false ∧ strTruthy req.format = true) ∧
          req.format.getD "" ∉ AUDIO_FORMATS
      · simp [POST, h1, h2, h3] at h
      · have h3f : (!req.original && strTruthy req.format
            && !(AUDIO_FORMATS.contains (req.format.getD ""))) = false := by
          cases hb : (!req.original && strTruthy req.format
              && !(AUDIO_FORMATS.contains (req.format.getD ""))) with
          | false => rfl
          | true =>
            simp only [Bool.and_eq_true, Bool.not_eq_true'] at hb
            exact absurd ⟨⟨hb.1.1, hb.1.2⟩, by simpa using hb.2⟩ h3
        refine ⟨h1, h2, h3f, ?_⟩
        cases hr : runYtDlp tool.outcome with
        | error msg => simp [POST, h1, h2, h3, hr]
        | ok u =>
          by_cases hf : tool.producedFiles = []
          · simp [POST, h1, h2, h3, hr, hf]
          · by_cases ha : audioFilter tool.producedFiles = []
            · simp [POST, h1, h2, h3, hr, hf, ha]
            · simp [POST, h1, h2, h3, hr, hf, ha]
    · simp [POST, h1, h2] at h

/-- On the spawn path the download handler's result is fully determined by
the tool run: the thrown-error branch, the empty-listing branch, the
all-images branch and the success branch. -/
theorem POST_spawn_result (tempDir : String) (req : DownloadRequest)
    (tool : ToolRun) (h : (POST tempDir req tool).spawnArgs ≠ none) :
    POST tempDir req tool =
      match runYtDlp tool.outcome with
      | .error msg =>
        { status := 500, errorBody := some msg, fileName := none,
          contentType := none, dirCreated := true,
          spawnArgs := some (buildArgs tempDir req), finalDir := none }
      | .ok _ =>
        if tool.producedFiles.length = 0 then
          { status := 500,
            errorBody := some "Download failed - no file created",
            fileName := none, contentType := none, dirCreated := true,
            spawnArgs := some (buildArgs tempDir req),
            finalDir := some tool.producedFiles }
        else if (audioFilter tool.producedFiles).length = 0 then
          { status := 500,
            errorBody := some "Download failed - no audio file created",
            fileName := none, contentType := none, dirCreated := true,
            spawnArgs := some (buildArgs tempDir req),
            finalDir := some tool.producedFiles }
        else
          { status := 200, errorBody := none,
            fileName := some ((audioFilter tool.producedFiles).headD ""),
            contentType := some (contentTypeOf
              (extOf ((audioFilter tool.producedFiles).headD ""))),
            dirCreated := true, spawnArgs := some (buildArgs tempDir req),
            finalDir := none } := by
  by_cases h1 : req.url = ""
  · simp [POST, h1] at h
  · by_cases h2 : youtubeRegexTest req.url
    · by_cases h3 : (req.original = false ∧ strTruthy req.format = true) ∧
          req.format.getD "" ∉ AUDIO_FORMATS
      · simp [POST, h1, h2, h3] at h
      · simp [POST, h1, h2, h3]
    · simp [POST, h1, h2] at h

/-! ## Claim theorems -/

/-- Claim C1 (code bug evaluation): the handler cleans the scratch
directory on the success path and on the thrown-error path, but the
NoOutputProduced and NoAudioProduced branches return their 500 response
with the scratch directory (and any sidecar files) still in place: after
a zero-exit tool run that left only `cover.jpg`, the handler returns 500
with the directory still holding `cover.jpg`. -/
theorem c1_cleanup_skipped_on_early_500 :
    (POST "/tmp/yt-audio-downloads/u1"
      ⟨"https://www.youtube.com/watch?v=abc", none, false⟩
      ⟨.exited 0 "", ["cover.jpg"]⟩).status = 500 ∧
    (POST "/tmp/yt-audio-downloads/u1"
      ⟨"https://www.youtube.com/watch?v=abc", none, false⟩
      ⟨.exited 0 "", ["cover.jpg"]⟩).errorBody =
        some "Download failed - no audio file created" ∧
    (POST "/tmp/yt-audio-downloads/u1"
      ⟨"https://www.youtube.com/watch?v=abc", none, false⟩
      ⟨.exited 0 "", ["cover.jpg"]⟩).dirCreated = true ∧
    (POST "/tmp/yt-audio-downloads/u1"
      ⟨"https://www.youtube.com/watch?v=abc", none, false⟩
      ⟨.exited 0 "", ["cover.jpg"]⟩).finalDir = some ["cover.jpg"] ∧
    (POST "/tmp/yt-audio-downloads/u2"
      ⟨"https://www.youtube.com/watch?v=abc", none, false⟩
      ⟨.exited 0 "", []⟩).finalDir = some [] ∧
    (POST "/tmp/yt-audio-downloads/u3"
      ⟨"https://www.youtube.com/watch?v=abc", none, false⟩
      ⟨.exited 0 "", ["song.opus", "cover.jpg"]⟩).finalDir = none ∧
    (POST "/tmp/yt-audio-downloads/u4"
      ⟨"https://www.youtube.com/watch?v=abc", none, false⟩
      ⟨.exited 1 "boom", ["partial.part"]⟩).finalDir = none := by
  decide

/-- Claim C2: every input URL that is empty or fails the spec's
case-insensitive host pattern is rejected by both the download and the
info endpoint with status 400, with no subprocess spawned and no scratch
directory created. -/
theorem c2_invalid_url_rejected (tempDir url : String) (fmt : Option String)
    (orig : Bool) (tool : ToolRun) (itool : InfoToolOutcome)
    (h : url = "" ∨ specUrlPattern url = false) :
    (POST tempDir ⟨url, fmt, orig⟩ tool).status = 400 ∧
    (POST tempDir ⟨url, fmt, orig⟩ tool).spawnArgs = none ∧
    (POST tempDir ⟨url, fmt, orig⟩ tool).dirCreated = false ∧
    (infoPOST url itool).status = 400 ∧
    (infoPOST url itool).spawnArgs = none := by
  by_cases h1 : url = ""
  · simp [POST, infoPOST, h1]
  · have h2 : youtubeRegexTest url = false := by
      rcases h with h | h
      · exact absurd h h1
      · cases hy : youtubeRegexTest url with
        | false => rfl
        | true =>
          rw [regexTest_implies_specPattern url hy] at h
          exact absurd h (by simp)
    simp [POST, infoPOST, h1, h2]

/-- Witness for C2 at a non-matching concrete URL. -/
theorem c2_witness :
    specUrlPattern "https://vimeo.com/123" = false ∧
    (POST "/tmp/yt-audio-downloads/w2"
      ⟨"https://vimeo.com/123", some "mp3", false⟩
      ⟨.exited 0 "", []⟩).status = 400 ∧
    (POST "/tmp/yt-audio-downloads/w2"
      ⟨"https://vimeo.com/123", some "mp3", false⟩
      ⟨.exited 0 "", []⟩).spawnArgs = none ∧
    (POST "/tmp/yt-audio-downloads/w2"
      ⟨"https://vimeo.com/123", some "mp3", false⟩
      ⟨.exited 0 "", []⟩).dirCreated = false ∧
    (infoPOST "https://vimeo.com/123" (.exited 0 "" none)).status = 400 ∧
    (infoPOST "https://vimeo.com/123" (.exited 0 "" none)).spawnArgs = none := by
  have h := c2_invalid_url_rejected "/tmp/yt-audio-downloads/w2"
    "https://vimeo.com/123" (some "mp3") false ⟨.exited 0 "", []⟩
    (.exited 0 "" none) (Or.inr (by decide))
  exact ⟨by decide, h.1, h.2.1, h.2.2.1, h.2.2.2.1, h.2.2.2.2⟩

/-- Claim C6 counterexample: a request with `original` false and `format`
present as the empty string — a value outside the allowed set — is not
rejected: JS truthiness skips validation for it, a scratch directory is
created, a subprocess is spawned and the request succeeds. -/
theorem c6_counterexample :
    "" ∉ AUDIO_FORMATS ∧
    (POST "/tmp/yt-audio-downloads/d6"
      ⟨"https://youtu.be/abc", some "", false⟩
      ⟨.exited 0 "", ["song.mp3"]⟩).status = 200 ∧
    (POST "/tmp/yt-audio-downloads/d6"
      ⟨"https://youtu.be/abc", some "", false⟩
      ⟨.exited 0 "", ["song.mp3"]⟩).spawnArgs =
        some (buildArgs "/tmp/yt-audio-downloads/d6"
          ⟨"https://youtu.be/abc", some "", false⟩) ∧
    (POST "/tmp/yt-audio-downloads/d6"
      ⟨"https://youtu.be/abc", some "", false⟩
      ⟨.exited 0 "", ["song.mp3"]⟩).dirCreated = true := by
  decide

/-- Claim C6 as amended: when `original` is false and `format` is present
with a non-empty value outside the allowed set, the download endpoint
returns 400, spawns nothing and creates no scratch directory (an
empty-string `format` is instead treated as absent and defaults to mp3). -/
theorem c6_invalid_format_rejected (tempDir url f : String) (tool : ToolRun)
    (hf : f ≠ "") (hmem : f ∉ AUDIO_FORMATS) :
    (POST tempDir ⟨url, some f, false⟩ tool).status = 400 ∧
    (POST tempDir ⟨url, some f, false⟩ tool).spawnArgs = none ∧
    (POST tempDir ⟨url, some f, false⟩ tool).dirCreated = false := by
  by_cases h1 : url = ""
  · simp [POST, h1]
  · by_cases h2 : youtubeRegexTest url
    · simp [POST, h1, h2, strTruthy, hf, hmem]
    · simp [POST, h1, h2]

/-- Witness for the amended C6 at a concrete disallowed format. -/
theorem c6_witness :
    (POST "/tmp/yt-audio-downloads/w6"
      ⟨"https://youtu.be/abc", some "xyz", false⟩
      ⟨.exited 0 "", []⟩).status = 400 ∧
    (POST "/tmp/yt-audio-downloads/w6"
      ⟨"https://youtu.be/abc", some "xyz", false⟩
      ⟨.exited 0 "", []⟩).spawnArgs = none ∧
    (POST "/tmp/yt-audio-downloads/w6"
      ⟨"https://youtu.be/abc", some "xyz", false⟩
      ⟨.exited 0 "", []⟩).dirCreated = false :=
  c6_invalid_format_rejected "/tmp/yt-audio-downloads/w6"
    "https://youtu.be/abc" "xyz" ⟨.exited 0 "", []⟩ (by decide) (by decide)

/-- Claim C10: with `original` true the `format` field is never consulted:
the whole handler result — argument list included — is the same for any
two format values, and on a URL that passes validation the response is
never a 400. -/
theorem c10_original_ignores_format (tempDir url : String)
    (f1 f2 : Option String) (tool : ToolRun) :
    POST tempDir ⟨url, f1, true⟩ tool = POST tempDir ⟨url, f2, true⟩ tool ∧
    (url ≠ "" → youtubeRegexTest url = true →
      (POST tempDir ⟨url, f1, true⟩ tool).status ≠ 400) := by
  constructor
  · rfl
  · intro h1 h2
    cases hr : runYtDlp tool.outcome with
    | error msg => simp [POST, h1, h2, hr]
    | ok u =>
      by_cases hf : tool.producedFiles = []
      · simp [POST, h1, h2, hr, hf]
      · by_cases ha : audioFilter tool.producedFiles = []
        · simp [POST, h1, h2, hr, hf, ha]
        · simp [POST, h1, h2, hr, hf, ha]

/-- Witness for C10 at a format value far outside the allowed set. -/
theorem c10_witness :
    POST "/tmp/yt-audio-downloads/w10"
      ⟨"https://youtu.be/a", some "not-a-format", true⟩
      ⟨.exited 0 "", ["a.opus"]⟩ =
    POST "/tmp/yt-audio-downloads/w10"
      ⟨"https://youtu.be/a", none, true⟩
      ⟨.exited 0 "", ["a.opus"]⟩ ∧
    (POST "/tmp/yt-audio-downloads/w10"
      ⟨"https://youtu.be/a", some "not-a-format", true⟩
      ⟨.exited 0 "", ["a.opus"]⟩).status ≠ 400 := by
  have h := c10_original_ignores_format "/tmp/yt-audio-downloads/w10"
    "https://youtu.be/a" (some "not-a-format") none ⟨.exited 0 "", ["a.opus"]⟩
  exact ⟨h.1, h.2 (by decide) (by decide)⟩

/-- Claim C3 counterexample: on a concrete valid URL the info resolver's
spawned argument list is exactly the JSON-dump flag, the no-warnings flag
and the URL — the no-playlist flag is not among the arguments. -/
theorem c3_counterexample :
    (infoPOST "https://youtu.be/abc" (.exited 0 "" none)).spawnArgs =
      some ["-j", "--no-warnings", "https://youtu.be/abc"] ∧
    "--no-playlist" ∉ ["-j", "--no-warnings", "https://youtu.be/abc"] := by
  decide

/-- Claim C3 as amended: for every URL the info resolver processes, the
spawned argument list is exactly the JSON-dump flag, the no-warnings flag
and the URL; the no-playlist flag is absent. -/
theorem c3_info_args (url : String) (tool : InfoToolOutcome)
    (as : List String) (h : (infoPOST url tool).spawnArgs = some as) :
    as = ["-j", "--no-warnings", url] ∧ "-j" ∈ as ∧ "--no-warnings" ∈ as ∧
    "--no-playlist" ∉ as := by
  by_cases h1 : url = ""
  · simp [infoPOST, h1] at h
  · by_cases h2 : youtubeRegexTest url
    · have hurl : url ≠ "--no-playlist" := by
        intro hu
        rw [hu] at h2
        exact absurd h2 (by decide)
      have key : (infoPOST url tool).spawnArgs =
          some ((getVideoInfo url tool).args) := by
        cases hres : (getVideoInfo url tool).result with
        | error m => simp [infoPOST, h1, h2, hres]
        | ok v => simp [infoPOST, h1, h2, hres]
      rw [key] at h
      have has : as = (getVideoInfo url tool).args := (Option.some.inj h).symm
      subst has
      refine ⟨rfl, by simp [getVideoInfo], by simp [getVideoInfo], ?_⟩
      intro hmem
      simp only [getVideoInfo, List.mem_cons, List.not_mem_nil, or_false]
        at hmem
      rcases hmem with hx | hx | hx
      · exact absurd hx (by decide)
      · exact absurd hx (by decide)
      · exact hurl hx.symm
    · simp [infoPOST, h1, h2] at h

/-- Witness for the amended C3 at a concrete URL. -/
theorem c3_witness :
    (infoPOST "https://youtu.be/w3" (.exited 1 "err" none)).spawnArgs =
      some ["-j", "--no-warnings", "https://youtu.be/w3"] ∧
    "--no-playlist" ∉ ["-j", "--no-warnings", "https://youtu.be/w3"] := by
  have h := c3_info_args "https://youtu.be/w3" (.exited 1 "err" none)
    ["-j", "--no-warnings", "https://youtu.be/w3"] (by decide)
  exact ⟨by decide, h.2.2.2⟩

/-- Claim C4: after a zero-exit tool run, the handler fails with the
NoOutputProduced 500 iff the directory listing is empty, fails with the
NoAudioProduced 500 iff the listing is non-empty but the image filter
removes everything, and otherwise serves the first remaining entry. -/
theorem c4_output_selection (tempDir : String) (req : DownloadRequest)
    (stderr : String) (files : List String)
    (h : (POST tempDir req ⟨.exited 0 stderr, files⟩).spawnArgs ≠ none) :
    (((POST tempDir req ⟨.exited 0 stderr, files⟩).status = 500 ∧
      (POST tempDir req ⟨.exited 0 stderr, files⟩).errorBody =
        some "Download failed - no file created") ↔ files = []) ∧
    (((POST tempDir req ⟨.exited 0 stderr, files⟩).status = 500 ∧
      (POST tempDir req ⟨.exited 0 stderr, files⟩).errorBody =
        some "Download failed - no audio file created") ↔
      (files ≠ [] ∧ audioFilter files = [])) ∧
    (audioFilter files ≠ [] →
      (POST tempDir req ⟨.exited 0 stderr, files⟩).status = 200 ∧
      (POST tempDir req ⟨.exited 0 stderr, files⟩).fileName =
        some ((audioFilter files).headD "")) := by
  have heq := POST_spawn_result tempDir req ⟨.exited 0 stderr, files⟩ h
  have hr : runYtDlp (ToolOutcome.exited 0 stderr) = .ok () := by
    simp [runYtDlp]
  rw [heq]
  by_cases hf : files = []
  · subst hf
    simp [hr, audioFilter]
  · by_cases ha : audioFilter files = []
    · simp [hr, hf, ha]
    · simp [hr, hf, ha]

/-- Witness for C4: a run leaving one audio file and one sidecar serves
the audio file. -/
theorem c4_witness :
    audioFilter ["track.mp3", "cover.webp"] ≠ [] ∧
    (POST "/tmp/yt-audio-downloads/w4"
      ⟨"https://youtu.be/a", some "mp3", false⟩
      ⟨.exited 0 "", ["track.mp3", "cover.webp"]⟩).status = 200 ∧
    (POST "/tmp/yt-audio-downloads/w4"
      ⟨"https://youtu.be/a", some "mp3", false⟩
      ⟨.exited 0 "", ["track.mp3", "cover.webp"]⟩).fileName =
        some ((audioFilter ["track.mp3", "cover.webp"]).headD "") := by
  have h := c4_output_selection "/tmp/yt-audio-downloads/w4"
    ⟨"https://youtu.be/a", some "mp3", false⟩ ""
    ["track.mp3", "cover.webp"] (by decide)
  exact ⟨by decide, (h.2.2 (by decide)).1, (h.2.2 (by decide)).2⟩

/-- Claim C9: a nonzero tool exit makes the request fail with a 500 whose
body is the captured standard-error text, or the fixed generic message
when that text is empty. -/
theorem c9_nonzero_exit_surfaces_stderr (tempDir : String)
    (req : DownloadRequest) (code : Nat) (stderr : String)
    (files : List String) (hc : code ≠ 0)
    (h : (POST tempDir req ⟨.exited code stderr, files⟩).spawnArgs ≠ none) :
    (POST tempDir req ⟨.exited code stderr, files⟩).status = 500 ∧
    (stderr ≠ "" →
      (POST tempDir req ⟨.exited code stderr, files⟩).errorBody =
        some stderr) ∧
    (stderr = "" →
      (POST tempDir req ⟨.exited code stderr, files⟩).errorBody =
        some "yt-dlp failed") := by
  have heq := POST_spawn_result tempDir req ⟨.exited code stderr, files⟩ h
  have hr : runYtDlp (ToolOutcome.exited code stderr) =
      .error (if stderr = "" then "yt-dlp failed" else stderr) := by
    simp [runYtDlp, hc]
  rw [heq]
  by_cases hs : stderr = ""
  · subst hs
    simp [hr]
  · simp [hr, hs]

/-- Witness for C9 with non-empty and empty captured standard error. -/
theorem c9_witness :
    (POST "/tmp/yt-audio-downloads/w9"
      ⟨"https://youtu.be/a", none, true⟩
      ⟨.exited 1 "ERROR: video unavailable", []⟩).status = 500 ∧
    (POST "/tmp/yt-audio-downloads/w9"
      ⟨"https://youtu.be/a", none, true⟩
      ⟨.exited 1 "ERROR: video unavailable", []⟩).errorBody =
        some "ERROR: video unavailable" ∧
    (POST "/tmp/yt-audio-downloads/w9"
      ⟨"https://youtu.be/a", none, true⟩
      ⟨.exited 1 "", []⟩).errorBody = some "yt-dlp failed" := by
  have h1 := c9_nonzero_exit_surfaces_stderr "/tmp/yt-audio-downloads/w9"
    ⟨"https://youtu.be/a", none, true⟩ 1 "ERROR: video unavailable" []
    (by decide) (by decide)
  have h2 := c9_nonzero_exit_surfaces_stderr "/tmp/yt-audio-downloads/w9"
    ⟨"https://youtu.be/a", none, true⟩ 1 "" [] (by decide) (by decide)
  exact ⟨h1.1, h1.2.1 (by decide), h2.2.2 rfl⟩

/-- The code's filter-then-map over the tool's format list agrees with the
spec's walk-and-keep description. -/
theorem audioFormatsOf_eq_spec (fs : List VideoFormat) :
    audioFormatsOf fs = specAudioFormats fs := by
  induction fs with
  | nil => rfl
  | cons f fs ih =>
    by_cases hv : f.vcodec = "none" <;> by_cases hac : f.acodec = "none" <;>
      simp_all [audioFormatsOf, specAudioFormats, List.filter_cons, hv, hac]

/-- Claim C7: on a zero-exit run whose output parses, the info resolver
returns the summary whose format list keeps exactly the entries with
video codec "none" and audio codec not "none" (an entry with both codecs
"none" is excluded), in the tool's original order, each mapped to its
descriptor (whose ext prefers the audio-specific extension field and
falls back to the generic one). -/
theorem c7_audio_format_filter (url stderr : String) (data : VideoData) :
    (getVideoInfo url (.exited 0 stderr (some data))).result =
      .ok { title := data.title, thumbnail := data.thumbnail,
            duration := data.duration, uploader := data.uploader,
            formats := specAudioFormats data.formats } := by
  simp [getVideoInfo, audioFormatsOf_eq_spec]

/-- Extensions outside the content-type table map to the generic binary
type. -/
theorem contentTypeOf_not_mem (e : String)
    (h : e ∉ ["mp3", "m4a", "aac", "opus", "ogg", "webm", "flac", "wav",
      "alac", "vorbis"]) :
    contentTypeOf e = "application/octet-stream" := by
  simp only [List.mem_cons, List.not_mem_nil, or_false, not_or] at h
  obtain ⟨h1, h2, h3, h4, h5, h6, h7, h8, h9, h10⟩ := h
  simp [contentTypeOf, contentTypes, lookupCT,
    h1, h2, h3, h4, h5, h6, h7, h8, h9, h10]

/-- Claim C8: the served content type is the fixed table applied to the
selected file's lowercased final extension, with every extension outside
the table mapping to application/octet-stream. -/
theorem c8_content_type (tempDir : String) (req : DownloadRequest)
    (tool : ToolRun) (f : String)
    (h : (POST tempDir req tool).fileName = some f) :
    (POST tempDir req tool).contentType = some (contentTypeOf (extOf f)) ∧
    contentTypeOf "mp3" = "audio/mpeg" ∧ contentTypeOf "m4a" = "audio/mp4" ∧
    contentTypeOf "alac" = "audio/mp4" ∧ contentTypeOf "aac" = "audio/aac" ∧
    contentTypeOf "opus" = "audio/ogg" ∧ contentTypeOf "ogg" = "audio/ogg" ∧
    contentTypeOf "vorbis" = "audio/ogg" ∧
    contentTypeOf "webm" = "audio/webm" ∧
    contentTypeOf "flac" = "audio/flac" ∧ contentTypeOf "wav" = "audio/wav" ∧
    (∀ e : String,
      e ∉ ["mp3", "m4a", "aac", "opus", "ogg", "webm", "flac", "wav",
        "alac", "vorbis"] →
      contentTypeOf e = "application/octet-stream") := by
  refine ⟨?_, by decide, by decide, by decide, by decide, by decide,
    by decide, by decide, by decide, by decide, by decide,
    contentTypeOf_not_mem⟩
  have hs : (POST tempDir req tool).spawnArgs ≠ none := by
    by_cases h1 : req.url = ""
    · simp [POST, h1] at h
    · by_cases h2 : youtubeRegexTest req.url
      · by_cases h3 : (req.original = false ∧ strTruthy req.format = true) ∧
            req.format.getD "" ∉ AUDIO_FORMATS
        · simp [POST, h1, h2, h3] at h
        · cases hr : runYtDlp tool.outcome with
          | error m => simp [POST, h1, h2, h3, hr]
          | ok u =>
            by_cases hf : tool.producedFiles = []
            · simp [POST, h1, h2, h3, hr, hf]
            · by_cases ha : audioFilter tool.producedFiles = []
              · simp [POST, h1, h2, h3, hr, hf, ha]
              · simp [POST, h1, h2, h3, hr, hf, ha]
      · simp [POST, h1, h2] at h
  have heq := POST_spawn_result tempDir req tool hs
  rw [heq] at h ⊢
  cases hr : runYtDlp tool.outcome with
  | error m =>
    rw [hr] at h
    simp at h
  | ok u =>
    rw [hr] at h
    by_cases hf : tool.producedFiles = []
    · simp [hf] at h
    · by_cases ha : audioFilter tool.producedFiles = []
      · simp [hf, ha] at h
      · simp [hf, ha] at h ⊢
        rw [h]

/-- Witness for C8: a flac download serves Content-Type audio/flac. -/
theorem c8_witness :
    (POST "/tmp/yt-audio-downloads/w8"
      ⟨"https://youtu.be/a", some "flac", false⟩
      ⟨.exited 0 "", ["song.flac"]⟩).fileName = some "song.flac" ∧
    (POST "/tmp/yt-audio-downloads/w8"
      ⟨"https://youtu.be/a", some "flac", false⟩
      ⟨.exited 0 "", ["song.flac"]⟩).contentType = some "audio/flac" := by
  have h := c8_content_type "/tmp/yt-audio-downloads/w8"
    ⟨"https://youtu.be/a", some "flac", false⟩
    ⟨.exited 0 "", ["song.flac"]⟩ "song.flac" (by decide)
  have hct : contentTypeOf (extOf "song.flac") = "audio/flac" := by decide
  exact ⟨by decide, by rw [h.1, hct]⟩

/-- The templated output path is never the thumbnail flag (it is longer
than the flag no matter the scratch path). -/
theorem outputTemplate_ne_flag (tempDir : String) :
    outputTemplateOf tempDir ≠ "--embed-thumbnail" := by
  intro h
  have hlen := congrArg String.length h
  rw [outputTemplateOf, String.length_append] at hlen
  have h18 : ("/%(title)s.%(ext)s" : String).length = 18 := by decide
  have h17 : ("--embed-thumbnail" : String).length = 17 := by decide
  rw [h18, h17] at hlen
  omega

/-- Claim C5: for every request that reaches argument construction, the
embed-thumbnail flag is in the constructed argument list iff the effective
output format (opus in original mode, else the requested format defaulting
to mp3) is in the thumbnail-capable set; in particular wav is not
thumbnail-capable. -/
theorem c5_thumbnail_iff (tempDir : String) (req : DownloadRequest)
    (tool : ToolRun) (as : List String)
    (h : (POST tempDir req tool).spawnArgs = some as) :
    ("--embed-thumbnail" ∈ as ↔ targetFormatOf req ∈ THUMBNAIL_SUPPORTED) ∧
    "wav" ∉ THUMBNAIL_SUPPORTED := by
  refine ⟨?_, by decide⟩
  have hs : (POST tempDir req tool).spawnArgs ≠ none := by
    rw [h]
    simp
  obtain ⟨h1, h2, h3, h4⟩ := POST_reaches_spawn tempDir req tool hs
  have has : as = buildArgs tempDir req := Option.some.inj (h.symm.trans h4)
  subst has
  have hurl : req.url ≠ "--embed-thumbnail" := by
    intro hu
    rw [hu] at h2
    exact absurd h2 (by decide)
  by_cases ho : req.original = true
  · have hbuild : buildArgs tempDir req =
        spliceBeforeMeta ["-x", "--audio-format", "opus", "--audio-quality",
          "0", "--embed-metadata", "--parse-metadata", pmRule,
          "-o", outputTemplateOf tempDir, "--no-warnings", "--no-playlist",
          req.url] "--embed-thumbnail" := by
      simp [buildArgs, ho]
    have htf : targetFormatOf req = "opus" := by
      simp [targetFormatOf, ho]
    rw [hbuild, htf]
    constructor
    · intro _
      decide
    · intro _
      exact (mem_spliceBeforeMeta _ _ _).2 (Or.inl rfl)
  · have hof : req.original = false := by
      simpa using ho
    have htf : targetFormatOf req = jsOrDefault req.format "mp3" := by
      simp [targetFormatOf, hof]
    have hmem3 : jsOrDefault req.format "mp3" = "mp3" ∨
        jsOrDefault req.format "mp3" ∈ AUDIO_FORMATS := by
      cases hfo : req.format with
      | none => exact Or.inl rfl
      | some s =>
        by_cases hse : s = ""
        · exact Or.inl (by simp [jsOrDefault, hse])
        · right
          rw [hfo] at h3
          simp only [hof, Bool.not_false, Bool.true_and, strTruthy,
            Bool.and_eq_false_iff] at h3
          rcases h3 with h3 | h3
          · exact absurd h3 (by simp [hse])
          · simp only [jsOrDefault, if_neg hse]
            simpa using h3
    by_cases hth : jsOrDefault req.format "mp3" ∈ THUMBNAIL_SUPPORTED
    · have hbuild : buildArgs tempDir req =
          spliceBeforeMeta ["-x", "--audio-format",
            jsOrDefault req.format "mp3", "--audio-quality",
            "0", "--embed-metadata", "--parse-metadata", pmRule,
            "-o", outputTemplateOf tempDir, "--no-warnings", "--no-playlist",
            req.url] "--embed-thumbnail" := by
        simp [buildArgs, hof, hth]
      rw [hbuild, htf]
      constructor
      · intro _
        exact hth
      · intro _
        exact (mem_spliceBeforeMeta _ _ _).2 (Or.inl rfl)
    · have hbuild : buildArgs tempDir req =
          ["-x", "--audio-format", jsOrDefault req.format "mp3",
            "--audio-quality", "0", "--embed-metadata", "--parse-metadata",
            pmRule, "-o", outputTemplateOf tempDir, "--no-warnings",
            "--no-playlist", req.url] := by
        simp [buildArgs, hof, hth]
      rw [hbuild, htf]
      refine iff_of_false ?_ hth
      intro hmem
      simp only [List.mem_cons, List.not_mem_nil, or_false] at hmem
      rcases hmem with hx|hx|hx|hx|hx|hx|hx|hx|hx|hx|hx|hx|hx
      · exact absurd hx (by decide)
      · exact absurd hx (by decide)
      · rcases hmem3 with hm | hm
        · rw [hm] at hx
          exact absurd hx (by decide)
        · rw [← hx] at hm
          exact absurd hm (by decide)
      · exact absurd hx (by decide)
      · exact absurd hx (by decide)
      · exact absurd hx (by decide)
      · exact absurd hx (by decide)
      · exact absurd hx (by decide)
      · exact absurd hx (by decide)
      · exact outputTemplate_ne_flag tempDir hx.symm
      · exact absurd hx (by decide)
      · exact absurd hx (by decide)
      · exact hurl hx.symm

/-- Witness for C5: a wav request constructs arguments without the
thumbnail flag. -/
theorem c5_witness :
    ("--embed-thumbnail" ∈
        buildArgs "/tmp/yt-audio-downloads/w5"
          ⟨"https://youtu.be/a", some "wav", false⟩ ↔
      targetFormatOf ⟨"https://youtu.be/a", some "wav", false⟩ ∈
        THUMBNAIL_SUPPORTED) ∧
    "wav" ∉ THUMBNAIL_SUPPORTED := by
  have h := c5_thumbnail_iff "/tmp/yt-audio-downloads/w5"
    ⟨"https://youtu.be/a", some "wav", false⟩ ⟨.exited 0 "", []⟩
    (buildArgs "/tmp/yt-audio-downloads/w5"
      ⟨"https://youtu.be/a", some "wav", false⟩) (by decide)
  exact h

end YtDlRoute
